import Mathlib

/-!
# Verification of the Xero agent-toolkit demo scripts

A shallow embedding of the four Python source files of the repository:

* `python/google-adk/google-adk.py`                          (namespace `GoogleADK`)
* `python/google-adk/cloud-run-invoicing-agent/xero_invoicing_agent/agent.py`
                                                             (namespace `CloudRun`)
* `python/langchain/langchain.py`                            (namespace `Langchain`)
* `python/openai/openai_agents.py`                           (namespace `OpenAIAgents`)

The scripts are thin demo drivers over vendor SDKs.  The embedding models:

* the process environment as a partial map from variable names to strings
  (`os.getenv` returning `None` is `none`);
* the subprocess launch configuration handed to the vendor SDKs
  (`command`, `args`, environment mapping, optional tool allow-list);
* each SDK agent invocation as a call to an oracle
  `String → Except String String` (either a textual answer or a raised
  exception carrying its message), so the scripts' own try/except structure
  becomes visible in the traces they produce;
* each demo function and interactive loop as a function from the oracle and
  the user inputs to a trace of events (prints, call starts, call ends).

Vendor-internal behaviour (how the LLM answers, what the MCP server does) is
exactly the oracle, universally quantified in the theorems.
-/

namespace XeroToolkit

/-- The process environment: `os.getenv` semantics, `none` when unset. -/
abbrev Env : Type := String → Option String

/-- Python truthiness of an `os.getenv` result: `None` and the empty string are
falsy, every other string is truthy (used by `if not os.getenv(...)` checks). -/
def envTruthy : Option String → Bool
  | none => false
  | some s => !s.isEmpty

/-- The published MCP server package name, `TS_MCP_SERVER_COMMAND` in both the
google-adk script and the Cloud Run agent module. -/
def TS_MCP_SERVER_COMMAND : String := "@xeroapi/xero-mcp-server@latest"

/-- Subprocess launch configuration (`StdioServerParameters` in google.adk, the
`params` dict of `MCPServerStdio` in the OpenAI script): the command, its
argument list, and the environment mapping passed to the subprocess.  Values in
the mapping are `Option String` because the google-adk scripts insert raw
`os.getenv` results, which may be `None`. -/
structure StdioServerParameters where
  command : String
  args : List String
  env_vars : List (String × Option String)
deriving DecidableEq, Repr

/-- An MCP toolset handle (`MCPToolset` in google.adk): launch parameters plus
an optional allow-list of tool names (`tool_filter`); `none` means no filter. -/
structure MCPToolset where
  connection_params : StdioServerParameters
  tool_filter : Option (List String)
deriving DecidableEq, Repr

/-- An agent invocation as seen by the scripts: the query text goes in, and the
vendor stack either returns a final answer or raises an exception whose message
(`str(e)`) is the `error` payload. -/
abbrev AgentOracle : Type := String → Except String String

/-- Observable events of one demo run: console prints, and the start/end of an
awaited SDK call (the end is emitted whether the call returned or raised -
either way the awaited request is no longer in flight). -/
inductive DemoEvent
  | print (s : String)
  | callStart (q : String)
  | callEnd (q : String)
deriving DecidableEq, Repr

/-- Demo loop whose `try`/`except` sits INSIDE the `for` loop (the google-adk
demos, and the per-request OpenAI demos): each query is printed, the agent is
invoked, the result or the exception's message is printed, and the loop always
proceeds to the next query. -/
def runQueriesTryInside (oracle : AgentOracle) : List String → List DemoEvent
  | [] => []
  | q :: rest =>
    DemoEvent.print q :: DemoEvent.callStart q ::
      (match oracle q with
       | Except.ok r => [DemoEvent.callEnd q, DemoEvent.print r]
       | Except.error e => [DemoEvent.callEnd q, DemoEvent.print e]) ++
      runQueriesTryInside oracle rest

/-- Demo loop where ONE `try`/`except` wraps the whole `for` loop (all the
langchain demos, and the OpenAI multi-step workflow demos): when a call raises,
the exception's message is printed and the remaining queries are abandoned. -/
def runQueriesTryOutside (oracle : AgentOracle) : List String → List DemoEvent
  | [] => []
  | q :: rest =>
    DemoEvent.print q :: DemoEvent.callStart q ::
      match oracle q with
      | Except.ok r => DemoEvent.callEnd q :: DemoEvent.print r ::
          runQueriesTryOutside oracle rest
      | Except.error e => [DemoEvent.callEnd q, DemoEvent.print e]

/-- One keyboard interaction in an interactive loop: a line of text, or an
interrupt signal (Ctrl-C) raised at the prompt. -/
inductive UserInput
  | text (s : String)
  | interrupt
deriving DecidableEq, Repr

/-- The quit test applied to the already-stripped input line:
`user_input.lower() in ['quit', 'exit', 'q']`. -/
def isQuitKeyword (s : String) : Bool :=
  ["quit", "exit", "q"].contains s.toLower

/-- An input that makes the interactive loop break: an interrupt, or a line
whose stripped form is a quit keyword. -/
def stopInput : UserInput → Bool
  | UserInput.interrupt => true
  | UserInput.text r => isQuitKeyword r.trim

/-- The stripped text an input contributes to the agent, if any: interrupts and
blank lines contribute nothing. -/
def textOf : UserInput → Option String
  | UserInput.interrupt => none
  | UserInput.text r => if r.trim.isEmpty then none else some r.trim

/-- The queries an interactive loop is expected to forward: the non-blank
stripped lines entered strictly before the first stopping input. -/
def forwardedOf (inputs : List UserInput) : List String :=
  (inputs.takeWhile (fun u => !stopInput u)).filterMap textOf

/-- The shared interactive loop of all three scripts: read a line, strip it,
break on a quit keyword or an interrupt, skip blank lines, otherwise invoke the
agent inside a per-iteration `try`/`except` (printing the answer or the
exception's message) and loop.  Returns the event trace and whether the loop
terminated (`false` when the supplied inputs ran out with the loop still
going).  The three scripts differ only in the framing text they print. -/
def runInteractiveLoop (oracle : AgentOracle) : List UserInput → List DemoEvent × Bool
  | [] => ([], false)
  | UserInput.interrupt :: _ => ([DemoEvent.print "Goodbye!"], true)
  | UserInput.text r :: rest =>
    let s := r.trim
    if isQuitKeyword s then ([DemoEvent.print "Goodbye!"], true)
    else if s.isEmpty then runInteractiveLoop oracle rest
    else
      let step : List DemoEvent :=
        DemoEvent.callStart s ::
          (match oracle s with
           | Except.ok resp => [DemoEvent.callEnd s, DemoEvent.print resp]
           | Except.error e => [DemoEvent.callEnd s, DemoEvent.print e])
      let next := runInteractiveLoop oracle rest
      (step ++ next.1, next.2)

/-- The queries actually sent to the agent in a trace, in order. -/
def callsOf (l : List DemoEvent) : List String :=
  l.filterMap fun e =>
    match e with
    | DemoEvent.callStart q => some q
    | _ => none

/-- Checker for "at most one SDK call in flight": scans a trace carrying the
flag "a call is currently open"; a `callStart` while one is open, or a
`callEnd` with none open, fails. -/
def seqOk : Bool → List DemoEvent → Bool
  | _, [] => true
  | inCall, e :: rest =>
    match e with
    | DemoEvent.callStart _ => !inCall && seqOk true rest
    | DemoEvent.callEnd _ => inCall && seqOk false rest
    | DemoEvent.print _ => seqOk inCall rest

/-- A primitive operation on the process environment. -/
inductive EnvOp
  | read (name : String)
  | write (name : String) (value : Option String)
deriving DecidableEq, Repr

/-- Whether an environment operation is a read. -/
def EnvOp.isRead : EnvOp → Bool
  | EnvOp.read _ => true
  | EnvOp.write _ _ => false

/-- Effect of one environment operation on the environment. -/
def applyEnvOp (env : Env) : EnvOp → Env
  | EnvOp.read _ => env
  | EnvOp.write n v => fun k => if k = n then v else env k

/-- Effect of a sequence of environment operations. -/
def runEnvOps (env : Env) (ops : List EnvOp) : Env :=
  ops.foldl applyEnvOp env

/-- The tool set an allow-list of names grants over what a server exposes:
exactly the server tools whose names appear in the list. -/
def allowListGives (allow : List String) (serverTools : List String) : List String :=
  serverTools.filter (fun t => decide (t ∈ allow))

/-- A string absent from any given finite list: one `'a'` longer than the
longest member. -/
def freshString (l : List String) : String :=
  String.mk (List.replicate ((l.map String.length).foldr max 0 + 1) 'a')

/-- Model of Python's `' '.join(parts)`. -/
def joinSpace : List String → String
  | [] => ""
  | [x] => x
  | x :: y :: rest => x ++ " " ++ joinSpace (y :: rest)

/-- Outcome of a script's startup section (`main` before any agent or
tool-provider construction): early return after printing the given lines,
an uncaught exception carrying a message, or fall-through to the demos. -/
inductive StartupOutcome
  | terminated (msgs : List String)
  | raised (msg : String)
  | proceed
deriving DecidableEq, Repr

/-- Whether en early exit carries a user-visible message (vacuously true for
`proceed`: the condition constrains only the early exits). -/
def StartupOutcome.earlyExitHasInstruction : StartupOutcome → Bool
  | StartupOutcome.terminated msgs => !msgs.isEmpty
  | StartupOutcome.raised msg => !msg.isEmpty
  | StartupOutcome.proceed => true

namespace GoogleADK

/-- `create_xero_mcp_toolset` (google-adk.py lines 28-56): npx launch of the
MCP server package with the two Xero credentials in the subprocess environment,
and a fixed `tool_filter` allow-list of fourteen tool names. -/
def create_xero_mcp_toolset (env : Env) : MCPToolset :=
  { connection_params :=
      { command := "npx"
        args := [TS_MCP_SERVER_COMMAND]
        env_vars :=
          [("XERO_CLIENT_ID", env "XERO_CLIENT_ID"),
           ("XERO_CLIENT_SECRET", env "XERO_CLIENT_SECRET")] }
    tool_filter := some
      ["list-contacts", "create-contact", "list-invoices", "create-invoice",
       "get-timesheet", "list-accounts", "list-items", "list-tax-rates",
       "list-tracking-categories", "update-contact", "update-invoice",
       "create-payment", "list-payments", "list-organisation-details"] }

/-- One part of an ADK response event: optional text and optional function-call
name (`hasattr(part, 'text')` failing is modelled as `text := none`). -/
structure Part where
  text : Option String
  function_call : Option String
deriving DecidableEq, Repr

/-- One ADK event: `none` when the event has no `content`/`parts` attribute. -/
structure Event where
  content : Option (List Part)
deriving DecidableEq, Repr

/-- The `response_parts` accumulation of `XeroADKAgent.process` (lines
208-225): for each event with content parts, append `part.text` whenever it is
present and truthy (non-`None` and non-empty). -/
def collectTexts (events : List Event) : List String :=
  events.foldl
    (fun acc ev =>
      match ev.content with
      | some parts =>
          acc ++ parts.filterMap (fun p =>
            match p.text with
            | some t => if t.isEmpty then none else some t
            | none => none)
      | none => acc)
    []

/-- `XeroADKAgent.process` (lines 184-233).  The vendor run is abstracted as
its outcome: either the list of events the async iteration yields, or an
exception message.  The whole body is inside `try`/`except Exception`, which
returns the formatted error message; otherwise the collected texts are joined
with spaces, with a fixed fallback when none were collected. -/
def XeroADKAgent.process (query : String) (outcome : Except String (List Event)) : String :=
  match outcome with
  | Except.error e => "Error processing query \x27" ++ query ++ "\x27: " ++ e
  | Except.ok events =>
    let response_parts := collectTexts events
    if response_parts.isEmpty then "I\x27m ready to help with Xero operations!"
    else joinSpace response_parts

/-- The candidate cleanup method names of `XeroADKAgent.cleanup` (lines
148-154), in order. -/
def cleanup_methods : List String :=
  ["close", "disconnect", "cleanup", "_client.close", "_connection.close"]

/-- Behaviour of the toolset and runtime during cleanup, supplied by the
environment: which attribute names exist on the toolset, what each candidate
cleanup call does (return or raise), and what `gc.collect()` does. -/
structure CleanupBehavior where
  hasAttr : String → Bool
  callMethod : String → Except String Unit
  gcResult : Except String Unit

/-- The `for method_name, method_call in cleanup_methods:` loop of `cleanup`
(lines 156-165): each candidate is guarded by `hasattr` on the first dotted
component and its call sits in an inner `try`; a raise moves on to the next
candidate, a success prints and breaks.  Returns the lines printed. -/
def tryCleanupMethods (b : CleanupBehavior) : List String → List String
  | [] => []
  | m :: rest =>
    if b.hasAttr ((m.splitOn ".").headD m) then
      match b.callMethod m with
      | Except.ok _ => ["✅ Used " ++ m ++ " for cleanup"]
      | Except.error _ => tryCleanupMethods b rest
    else tryCleanupMethods b rest

/-- `XeroADKAgent.cleanup` (lines 143-173): the whole body is inside
`try`/`except Exception`; the `except` arm only prints a warning, so no
exception escapes.  The result is `ok` with the printed lines; `error` would
mean a propagated exception. -/
def XeroADKAgent.cleanup (hasToolset : Bool) (b : CleanupBehavior) :
    Except String (List String) :=
  let body : Except String (List String) :=
    let methodPrints := if hasToolset then tryCleanupMethods b cleanup_methods else []
    match b.gcResult with
    | Except.ok _ => Except.ok (methodPrints ++ ["✅ Agent cleanup completed"])
    | Except.error e => Except.error e
  match body with
  | Except.ok msgs => Except.ok msgs
  | Except.error e => Except.ok ["⚠️ Warning during cleanup: " ++ e]

/-- `XeroADKAgent.__aexit__` (lines 180-182): it just awaits `cleanup`. -/
def XeroADKAgent.aexit (hasToolset : Bool) (b : CleanupBehavior) :
    Except String (List String) :=
  XeroADKAgent.cleanup hasToolset b

/-- The queries of `demo_basic_operations` (lines 243-247). -/
def basic_operations_queries : List String :=
  ["Show me a summary of my Xero account",
   "List my first 5 contacts",
   "Show me recent invoices"]

/-- `demo_basic_operations` (lines 236-263): per-query `try`/`except` with
`continue`, so every query is attempted. -/
def demo_basic_operations (oracle : AgentOracle) : List DemoEvent :=
  runQueriesTryInside oracle basic_operations_queries

/-- The steps of `demo_invoice_workflow` (lines 273-277). -/
def invoice_workflow_queries : List String :=
  ["Create a new customer named \x27Demo Company Inc\x27 with email \x27demo@company.com\x27",
   "List all customers to find the Demo Company",
   "Create an invoice for Demo Company Inc for \x27ADK Integration Services\x27 worth $750"]

/-- `demo_invoice_workflow` (lines 266-286): per-step `try`/`except`. -/
def demo_invoice_workflow (oracle : AgentOracle) : List DemoEvent :=
  runQueriesTryInside oracle invoice_workflow_queries

/-- The queries of `demo_natural_language_processing` (lines 296-301). -/
def nl_queries : List String :=
  ["I need to bill my client $2,000 for consulting work",
   "Show me all my customers",
   "What\x27s the current state of my invoices?",
   "Create a new supplier called TechSupport Ltd with email support@techsupport.com"]

/-- `demo_natural_language_processing` (lines 289-310): per-query
`try`/`except`. -/
def demo_natural_language_processing (oracle : AgentOracle) : List DemoEvent :=
  runQueriesTryInside oracle nl_queries

/-- The scenarios of `demo_error_handling` (lines 320-324). -/
def error_scenarios : List String :=
  ["Create an invoice for a contact that doesn\x27t exist with ID \x27invalid-id\x27",
   "Get details for invoice with ID \x27fake-invoice-123\x27",
   "List invoices with invalid status \x27IMAGINARY\x27"]

/-- `demo_error_handling` (lines 313-333): per-scenario `try`/`except`. -/
def demo_error_handling (oracle : AgentOracle) : List DemoEvent :=
  runQueriesTryInside oracle error_scenarios

/-- The single batch query of `demo_batch_operations` (lines 344-350),
whitespace condensed. -/
def batch_query : String :=
  "Please do the following operations in sequence: 1. Get a summary of my Xero account 2. List the first 3 contacts 3. Show me any draft invoices Provide a summary of what you found."

/-- `demo_batch_operations` (lines 336-358): one call inside `try`/`except`. -/
def demo_batch_operations (oracle : AgentOracle) : List DemoEvent :=
  runQueriesTryInside oracle [batch_query]

/-- `interactive_demo` (lines 361-393): the shared interactive loop shape; the
per-iteration `except Exception` prints and keeps looping, `KeyboardInterrupt`
and the quit keywords break. -/
def interactive_demo (oracle : AgentOracle) (inputs : List UserInput) :
    List DemoEvent × Bool :=
  runInteractiveLoop oracle inputs

/-- The startup section of `main` (lines 396-434), in source order: the
google-adk import check, the two Xero credential variables, the model
configuration, and the `shutil.which("npx")` check.  Each failing check prints
instructions and returns before any agent or toolset is constructed. -/
def main_startup (adkInstalled : Bool) (env : Env) (npxAvailable : Bool) :
    StartupOutcome :=
  if !adkInstalled then
    StartupOutcome.terminated
      ["❌ Google ADK is not installed. Please install with: pip install google-adk"]
  else
    let missing_vars :=
      ["XERO_CLIENT_ID", "XERO_CLIENT_SECRET"].filter (fun v => !envTruthy (env v))
    if !missing_vars.isEmpty then
      StartupOutcome.terminated
        (["❌ Error: Missing required environment variables:"] ++
         missing_vars.map (fun v => "   - " ++ v) ++
         ["Please set these environment variables:",
          "- XERO_CLIENT_ID: Your Xero app\x27s client ID",
          "- XERO_CLIENT_SECRET: Your Xero app\x27s client secret",
          "You can get these from: https://developer.xero.com/"])
    else if !envTruthy (env "DEFAULT_MODEL") && !envTruthy (env "GOOGLE_API_KEY") &&
        !envTruthy (env "GOOGLE_GENAI_USE_VERTEXAI") then
      StartupOutcome.terminated
        ["❌ Error: No model configuration found",
         "Please set either:",
         "- GOOGLE_API_KEY for Google AI Studio",
         "- GOOGLE_GENAI_USE_VERTEXAI=TRUE for Vertex AI"]
    else if !npxAvailable then
      StartupOutcome.terminated
        ["❌ Error: npx is not installed",
         "Please install Node.js and npm to get npx",
         "Visit: https://nodejs.org/"]
    else StartupOutcome.proceed

/-- The `demos` menu dictionary of `main` (lines 451-458). -/
def demos : List (String × String) :=
  [("1", "demo_basic_operations"),
   ("2", "demo_invoice_workflow"),
   ("3", "demo_natural_language_processing"),
   ("4", "demo_error_handling"),
   ("5", "demo_batch_operations"),
   ("6", "interactive_demo")]

/-- Menu selection of `main` (lines 449-469): the choice is stripped and looked
up in the `demos` dictionary; anything else prints "Invalid choice". -/
def selectDemo (choice : String) : Option String :=
  demos.lookup choice.trim

/-- Every access the google-adk script makes to the process environment, per
function, in source order (`os.getenv` calls only; `load_dotenv()` at line 23
establishes the startup environment before any of these run). -/
def envOps : List (List EnvOp) :=
  [[EnvOp.read "XERO_CLIENT_ID", EnvOp.read "XERO_CLIENT_SECRET"],
   [EnvOp.read "DEFAULT_MODEL"],
   [EnvOp.read "XERO_CLIENT_ID", EnvOp.read "XERO_CLIENT_SECRET",
    EnvOp.read "DEFAULT_MODEL", EnvOp.read "GOOGLE_API_KEY",
    EnvOp.read "GOOGLE_GENAI_USE_VERTEXAI"]]

end GoogleADK

namespace CloudRun

/-- `my_env_vars` (agent.py lines 11-14): raw `os.getenv` results, so a value
is `none` exactly when the variable is unset. -/
def my_env_vars (env : Env) : List (String × Option String) :=
  [("XERO_CLIENT_ID", env "XERO_CLIENT_ID"),
   ("XERO_CLIENT_SECRET", env "XERO_CLIENT_SECRET")]

/-- `xero_mcp_toolset` (agent.py lines 16-32), constructed at module import
time: no missing-variable check guards it, so construction is a total function
of the environment. -/
def xero_mcp_toolset (env : Env) : MCPToolset :=
  { connection_params :=
      { command := "npx"
        args := [TS_MCP_SERVER_COMMAND]
        env_vars := my_env_vars env }
    tool_filter := some
      ["list-contacts", "list-items", "list-tax-rates", "list-accounts",
       "list-tracking-categories", "create-invoice", "list-invoices",
       "update-invoice"] }

/-- The fields of the module-level `root_agent` (agent.py lines 34-48) that the
embedding tracks; the instruction prompt is opaque text and is elided. -/
structure ADKAgentDef where
  name : String
  model : Option String
  description : String
  tools : List MCPToolset
deriving DecidableEq, Repr

/-- `root_agent` (agent.py lines 34-48), also constructed at import time with
the raw `os.getenv("DEFAULT_MODEL")`. -/
def root_agent (env : Env) : ADKAgentDef :=
  { name := "xero_invoicing_agent"
    model := env "DEFAULT_MODEL"
    description := "Xero Invoicing Agent"
    tools := [xero_mcp_toolset env] }

/-- Every access the Cloud Run agent module makes to the process environment,
per site, in source order (`load_dotenv` at line 7 establishes the startup
environment before these run). -/
def envOps : List (List EnvOp) :=
  [[EnvOp.read "XERO_CLIENT_ID", EnvOp.read "XERO_CLIENT_SECRET"],
   [EnvOp.read "DEFAULT_MODEL"]]

end CloudRun

namespace Langchain

/-- The "xero" server entry handed to `MultiServerMCPClient` (langchain.py
lines 40-50). -/
structure MCPClientServerConfig where
  transport : String
  command : String
  args : List String
  env : List (String × Option String)
deriving DecidableEq, Repr

/-- The client configuration built inside `create_xero_mcp_agent` (lines
40-50): stdio transport, npx launch of the server package, the two Xero
credentials in the subprocess environment, and NO tool filter of any kind. -/
def xero_server_config (env : Env) : MCPClientServerConfig :=
  { transport := "stdio"
    command := "npx"
    args := ["-y", "@xeroapi/xero-mcp-server@latest"]
    env :=
      [("XERO_CLIENT_ID", env "XERO_CLIENT_ID"),
       ("XERO_CLIENT_SECRET", env "XERO_CLIENT_SECRET")] }

/-- `tools = await client.get_tools()` then `create_react_agent(llm, tools)`
(lines 52-59): the agent receives every tool the server exposes; nothing is
filtered locally. -/
def agent_tools (serverTools : List String) : List String :=
  serverTools

/-- The queries of `demo_invoice_specialist_agent` (lines 73-77). -/
def invoice_specialist_queries : List String :=
  ["Find all draft invoices",
   "Find the first 3 customers",
   "Create an invoice for one of the customers found for 10 hours of consulting at $150 per hour"]

/-- `demo_invoice_specialist_agent` (lines 64-94): ONE `try`/`except` wraps the
whole query loop, so a raise abandons the remaining queries. -/
def demo_invoice_specialist_agent (oracle : AgentOracle) : List DemoEvent :=
  runQueriesTryOutside oracle invoice_specialist_queries

/-- The queries of `demo_contact_manager_agent` (lines 106-110). -/
def contact_manager_queries : List String :=
  ["Create a new customer called \x27Demo Corp\x27 with email demo@demo.com",
   "Find all suppliers",
   "Search for contacts with \x27demo\x27 in their name"]

/-- `demo_contact_manager_agent` (lines 97-127): same whole-loop `try`. -/
def demo_contact_manager_agent (oracle : AgentOracle) : List DemoEvent :=
  runQueriesTryOutside oracle contact_manager_queries

/-- The single prompt of `demo_multi_step_workflow` (lines 138-143),
whitespace condensed. -/
def workflow_prompt : String :=
  "Please help me with monthly invoicing: 1. First, find all active customers 2. Show me the first 3 customers found 3. Explain how I could create invoices for them (but don\x27t actually create them yet)"

/-- `demo_multi_step_workflow` (lines 130-157): one call inside `try`. -/
def demo_multi_step_workflow (oracle : AgentOracle) : List DemoEvent :=
  runQueriesTryOutside oracle [workflow_prompt]

/-- The single prompt of `demo_invoice_analysis` (lines 168-173),
whitespace condensed. -/
def analysis_prompt : String :=
  "Please help me analyze my invoices: 1. Find a recent invoice 2. Provide analysis including total amount, payment status, and any recommendations 3. If overdue, calculate days overdue"

/-- `demo_invoice_analysis` (lines 160-187): one call inside `try`. -/
def demo_invoice_analysis (oracle : AgentOracle) : List DemoEvent :=
  runQueriesTryOutside oracle [analysis_prompt]

/-- The single prompt of `demo_organization_insights` (lines 234-240),
whitespace condensed. -/
def insights_prompt : String :=
  "Please provide me with insights about my Xero organization: 1. Get the organization details 2. Get a summary of contacts (total count, types) 3. Get a summary of recent invoices 4. Provide any recommendations for better organization"

/-- `demo_organization_insights` (lines 226-254): one call inside `try`. -/
def demo_organization_insights (oracle : AgentOracle) : List DemoEvent :=
  runQueriesTryOutside oracle [insights_prompt]

/-- `interactive_mcp_demo` (lines 190-223): the shared interactive loop shape
(quit keywords break, blank lines skip, per-iteration `except Exception`
prints and keeps looping). -/
def interactive_mcp_demo (oracle : AgentOracle) (inputs : List UserInput) :
    List DemoEvent × Bool :=
  runInteractiveLoop oracle inputs

/-- The startup section of `main` (lines 258-269): only the OpenAI key and the
two Xero credential variables are checked; `npx` availability is never
consulted (the parameter is taken here only to state that absence). -/
def main_startup (env : Env) (_npxAvailable : Bool) : StartupOutcome :=
  if !envTruthy (env "OPENAI_API_KEY") then
    StartupOutcome.terminated ["Error: OPENAI_API_KEY not set in environment"]
  else if !envTruthy (env "XERO_CLIENT_ID") || !envTruthy (env "XERO_CLIENT_SECRET") then
    StartupOutcome.terminated
      ["Error: Xero credentials not set in environment",
       "Please set XERO_CLIENT_ID and XERO_CLIENT_SECRET"]
  else StartupOutcome.proceed

/-- The `demos` menu dictionary of `main` (lines 284-291). -/
def demos : List (String × String) :=
  [("1", "demo_invoice_specialist_agent"),
   ("2", "demo_contact_manager_agent"),
   ("3", "demo_multi_step_workflow"),
   ("4", "demo_invoice_analysis"),
   ("5", "interactive_mcp_demo"),
   ("6", "demo_organization_insights")]

/-- Menu selection of `main` (lines 282-296): stripped choice looked up in the
`demos` dictionary. -/
def selectDemo (choice : String) : Option String :=
  demos.lookup choice.trim

/-- Every access the langchain script makes to the process environment, per
function, in source order. -/
def envOps : List (List EnvOp) :=
  [[EnvOp.read "XERO_CLIENT_ID", EnvOp.read "XERO_CLIENT_SECRET"],
   [EnvOp.read "OPENAI_API_KEY", EnvOp.read "XERO_CLIENT_ID",
    EnvOp.read "XERO_CLIENT_SECRET"]]

end Langchain

namespace OpenAIAgents

/-- The fields of an Agents-SDK `Agent` the embedding tracks (openai_agents.py
lines 39-47 etc.); the instruction prompt is opaque text and is elided. -/
structure Agent where
  name : String
  model : String
  mcp_servers : List String
deriving DecidableEq, Repr

/-- `create_basic_xero_agent` (lines 29-49): binds the given MCP server handle
with no tool restriction. -/
def create_basic_xero_agent (mcp_server : String) : Agent :=
  { name := "Xero Assistant", model := "gpt-4o-mini", mcp_servers := [mcp_server] }

/-- `create_invoice_specialist_agent` (lines 52-72). -/
def create_invoice_specialist_agent (mcp_server : String) : Agent :=
  { name := "Invoice Specialist", model := "gpt-4o-mini", mcp_servers := [mcp_server] }

/-- `create_contact_manager_agent` (lines 75-94). -/
def create_contact_manager_agent (mcp_server : String) : Agent :=
  { name := "Contact Manager", model := "gpt-4o-mini", mcp_servers := [mcp_server] }

/-- An agent built by this script exposes every tool its MCP server exposes:
no `Agent` constructor in the script passes any tool filter. -/
def agent_tools (serverTools : List String) : List String :=
  serverTools

/-- The requests of `demo_basic_agent` (lines 106-110). -/
def basic_agent_requests : List String :=
  ["Find all active customers",
   "Create a new customer named \x27Tech Solutions Inc\x27 with email tech@solutions.com",
   "Find customers with \x27Tech\x27 in their name to see if our customer was created"]

/-- `demo_basic_agent` (lines 97-125): per-request `try`/`except`, so every
request is attempted. -/
def demo_basic_agent (oracle : AgentOracle) : List DemoEvent :=
  runQueriesTryInside oracle basic_agent_requests

/-- The requests of `demo_invoice_specialist` (lines 137-141). -/
def invoice_specialist_requests : List String :=
  ["Find all draft invoices",
   "Find all invoices with status AUTHORISED",
   "Find invoices from the last 30 days"]

/-- `demo_invoice_specialist` (lines 128-151): per-request `try`/`except`. -/
def demo_invoice_specialist (oracle : AgentOracle) : List DemoEvent :=
  runQueriesTryInside oracle invoice_specialist_requests

/-- The requests of `demo_contact_manager` (lines 163-167). -/
def contact_manager_requests : List String :=
  ["Find all customers",
   "Create a new supplier \x27Office Supplies Ltd\x27 with email orders@officesupplies.com",
   "Search for contacts with \x27tech\x27 in their name"]

/-- `demo_contact_manager` (lines 154-177): per-request `try`/`except`. -/
def demo_contact_manager (oracle : AgentOracle) : List DemoEvent :=
  runQueriesTryInside oracle contact_manager_requests

/-- The three steps of `demo_multi_agent_workflow` (lines 190-209). -/
def multi_agent_workflow_steps : List String :=
  ["Create a new customer named \x27Demo Corp\x27 with email billing@democorp.com",
   "Find a customer named \x27Demo Corp\x27",
   "Find the first 3 customers"]

/-- `demo_multi_agent_workflow` (lines 180-215): ONE `try`/`except` wraps all
three steps, so a raise abandons the remaining steps. -/
def demo_multi_agent_workflow (oracle : AgentOracle) : List DemoEvent :=
  runQueriesTryOutside oracle multi_agent_workflow_steps

/-- The three steps of `demo_comprehensive_workflow` (lines 228-248). -/
def comprehensive_workflow_steps : List String :=
  ["Create a new customer named \x27Workflow Demo Ltd\x27 with email demo@workflow.com",
   "Find customers with \x27Workflow\x27 in their name and show me their contact IDs",
   "Find the first 3 customers and show their contact IDs so I can create an invoice"]

/-- `demo_comprehensive_workflow` (lines 218-257): one `try` around all
steps. -/
def demo_comprehensive_workflow (oracle : AgentOracle) : List DemoEvent :=
  runQueriesTryOutside oracle comprehensive_workflow_steps

/-- The agent-type submenu of `interactive_demo` (lines 265-283): "1"-"3"
select an agent, anything else returns before the input loop starts. -/
def selectAgent (choice : String) : Option String :=
  let c := choice.trim
  if c = "1" then some "General Assistant"
  else if c = "2" then some "Invoice Specialist"
  else if c = "3" then some "Contact Manager"
  else none

/-- The input loop of `interactive_demo` (lines 298-317): the shared
interactive loop shape. -/
def interactive_demo_loop (oracle : AgentOracle) (inputs : List UserInput) :
    List DemoEvent × Bool :=
  runInteractiveLoop oracle inputs

/-- The demo menu of `run_demo_with_mcp` (lines 325-348), an if/elif chain. -/
def selectDemo (choice : String) : Option String :=
  let c := choice.trim
  if c = "1" then some "demo_basic_agent"
  else if c = "2" then some "demo_invoice_specialist"
  else if c = "3" then some "demo_contact_manager"
  else if c = "4" then some "demo_multi_agent_workflow"
  else if c = "5" then some "demo_comprehensive_workflow"
  else if c = "6" then some "interactive_demo"
  else none

/-- The startup section of `main` (lines 351-366): the OpenAI key and the Xero
credentials terminate with printed instructions when missing; the missing-npx
check `raise`s a `RuntimeError` whose message carries the instruction. -/
def main_startup (env : Env) (npxAvailable : Bool) : StartupOutcome :=
  if !envTruthy (env "OPENAI_API_KEY") then
    StartupOutcome.terminated
      ["Error: OPENAI_API_KEY not set in environment",
       "Please set your OpenAI API key to run this example"]
  else if !envTruthy (env "XERO_CLIENT_ID") || !envTruthy (env "XERO_CLIENT_SECRET") then
    StartupOutcome.terminated
      ["Error: Xero credentials not set in environment",
       "Please set XERO_CLIENT_ID and XERO_CLIENT_SECRET"]
  else if !npxAvailable then
    StartupOutcome.raised
      "npx is not installed. Please install it with `npm install -g npx`."
  else StartupOutcome.proceed

/-- The `MCPServerStdio` parameters built in `main` (lines 369-379) from the
two credential values; `os.environ[k]` yields a plain string, hence the
`String` arguments. -/
def mcp_server_params (cid cs : String) : StdioServerParameters :=
  { command := "npx"
    args := ["-y", "@xeroapi/xero-mcp-server@latest"]
    env_vars := [("XERO_CLIENT_ID", some cid), ("XERO_CLIENT_SECRET", some cs)] }

/-- `main`'s construction of the MCP server handle: `os.environ['...']` raises
`KeyError` when the variable is absent, modelled as `none`. -/
def main_server_params (env : Env) : Option StdioServerParameters :=
  match env "XERO_CLIENT_ID", env "XERO_CLIENT_SECRET" with
  | some cid, some cs => some (mcp_server_params cid cs)
  | _, _ => none

/-- Every access the OpenAI script makes to the process environment, per
function, in source order (`os.getenv` checks then the two `os.environ`
subscript reads in `main`). -/
def envOps : List (List EnvOp) :=
  [[EnvOp.read "OPENAI_API_KEY", EnvOp.read "XERO_CLIENT_ID",
    EnvOp.read "XERO_CLIENT_SECRET", EnvOp.read "XERO_CLIENT_ID",
    EnvOp.read "XERO_CLIENT_SECRET"]]

end OpenAIAgents

/-- Summary of the google-adk `main` environment checks: both Xero credentials
truthy and at least one model configuration truthy. -/
def GoogleADK.envConfigOk (env : Env) : Bool :=
  (envTruthy (env "XERO_CLIENT_ID") && envTruthy (env "XERO_CLIENT_SECRET")) &&
    (envTruthy (env "DEFAULT_MODEL") || envTruthy (env "GOOGLE_API_KEY") ||
      envTruthy (env "GOOGLE_GENAI_USE_VERTEXAI"))

/-- Summary of the langchain `main` environment checks. -/
def Langchain.envConfigOk (env : Env) : Bool :=
  envTruthy (env "OPENAI_API_KEY") && envTruthy (env "XERO_CLIENT_ID") &&
    envTruthy (env "XERO_CLIENT_SECRET")

/-- Summary of the OpenAI-script `main` environment checks. -/
def OpenAIAgents.envConfigOk (env : Env) : Bool :=
  envTruthy (env "OPENAI_API_KEY") && envTruthy (env "XERO_CLIENT_ID") &&
    envTruthy (env "XERO_CLIENT_SECRET")

/-- The environment-access lists of all four source files together. -/
def allScriptEnvOps : List (List EnvOp) :=
  GoogleADK.envOps ++ CloudRun.envOps ++ Langchain.envOps ++ OpenAIAgents.envOps

/-- A concrete environment with nothing set. -/
def emptyEnv : Env := fun _ => none

/-- A concrete environment with all the credentials the scripts look for. -/
def demoEnv : Env := fun k =>
  if k = "XERO_CLIENT_ID" then some "cid"
  else if k = "XERO_CLIENT_SECRET" then some "secret"
  else if k = "OPENAI_API_KEY" then some "sk-demo"
  else if k = "GOOGLE_API_KEY" then some "gk-demo"
  else none

/-- A concrete cleanup behaviour: no usable cleanup attribute and a failing
`gc.collect()`. -/
def failingCleanupBehavior : GoogleADK.CleanupBehavior :=
  { hasAttr := fun _ => false
    callMethod := fun _ => Except.ok ()
    gcResult := Except.error "gc exploded" }

/-! ## Helper lemmas -/

/-- A lookup in a string-keyed association list succeeds exactly on the keys. -/
theorem lookup_isSome_eq_contains {β : Type} (k : String) :
    ∀ l : List (String × β), (l.lookup k).isSome = (l.map Prod.fst).contains k := by
  intro l
  induction l with
  | nil => rfl
  | cons p rest ih =>
    cases p with
    | mk a b =>
      by_cases h : k = a
      · simp [List.lookup, h]
      · have hb : (k == a) = false := beq_eq_false_iff_ne.mpr h
        simp [List.lookup, hb, ih]

/-- In a per-query `try`/`except` loop, every query is attempted, whatever the
oracle raises. -/
theorem runQueriesTryInside_callStart_mem (oracle : AgentOracle) :
    ∀ qs : List String, ∀ q ∈ qs,
      DemoEvent.callStart q ∈ runQueriesTryInside oracle qs := by
  intro qs
  induction qs with
  | nil => intro q hq; cases hq
  | cons a rest ih =>
    intro q hq
    rcases List.mem_cons.mp hq with h | h
    · subst h
      cases horacle : oracle q <;> simp [runQueriesTryInside, horacle]
    · cases horacle : oracle a <;> simp [runQueriesTryInside, horacle, ih q h]

/-- In a per-query `try`/`except` loop, a raised exception's message is
printed. -/
theorem runQueriesTryInside_error_print_mem (oracle : AgentOracle) :
    ∀ qs : List String, ∀ q ∈ qs, ∀ e, oracle q = Except.error e →
      DemoEvent.print e ∈ runQueriesTryInside oracle qs := by
  intro qs
  induction qs with
  | nil => intro q hq; cases hq
  | cons a rest ih =>
    intro q hq e he
    rcases List.mem_cons.mp hq with h | h
    · subst h
      simp [runQueriesTryInside, he]
    · cases horacle : oracle a <;>
        simp [runQueriesTryInside, horacle, ih q h e he]

/-- In a whole-loop `try`/`except`, a raise on the first query prints its
message and abandons every remaining query. -/
theorem runQueriesTryOutside_error_head (oracle : AgentOracle) (q : String)
    (rest : List String) (e : String) (he : oracle q = Except.error e) :
    runQueriesTryOutside oracle (q :: rest) =
      [DemoEvent.print q, DemoEvent.callStart q, DemoEvent.callEnd q,
       DemoEvent.print e] := by
  simp [runQueriesTryOutside, he]

/-- Per-query demo loops keep at most one call in flight. -/
theorem seqOk_runQueriesTryInside (oracle : AgentOracle) :
    ∀ qs : List String, seqOk false (runQueriesTryInside oracle qs) = true := by
  intro qs
  induction qs with
  | nil => rfl
  | cons a rest ih =>
    cases horacle : oracle a <;> simp [runQueriesTryInside, horacle, seqOk, ih]

/-- Whole-loop demo loops keep at most one call in flight. -/
theorem seqOk_runQueriesTryOutside (oracle : AgentOracle) :
    ∀ qs : List String, seqOk false (runQueriesTryOutside oracle qs) = true := by
  intro qs
  induction qs with
  | nil => rfl
  | cons a rest ih =>
    cases horacle : oracle a <;> simp [runQueriesTryOutside, horacle, seqOk, ih]

/-- The interactive loop keeps at most one call in flight. -/
theorem seqOk_runInteractiveLoop (oracle : AgentOracle) :
    ∀ inputs : List UserInput,
      seqOk false (runInteractiveLoop oracle inputs).1 = true := by
  intro inputs
  induction inputs with
  | nil => rfl
  | cons u rest ih =>
    cases u with
    | interrupt => rfl
    | text r =>
      by_cases hq : isQuitKeyword r.trim
      · simp [runInteractiveLoop, hq, seqOk]
      · by_cases hempty : r.trim.isEmpty
        · simp [runInteractiveLoop, hq, hempty, ih]
        · cases horacle : oracle r.trim <;>
            simp [runInteractiveLoop, hq, hempty, horacle, seqOk, ih]

/-- The interactive loop terminates exactly when some input is an interrupt or
a quit keyword. -/
theorem runInteractiveLoop_snd_eq_any (oracle : AgentOracle) :
    ∀ inputs : List UserInput,
      (runInteractiveLoop oracle inputs).2 = inputs.any stopInput := by
  intro inputs
  induction inputs with
  | nil => rfl
  | cons u rest ih =>
    cases u with
    | interrupt => simp [runInteractiveLoop, stopInput]
    | text r =>
      by_cases hq : isQuitKeyword r.trim
      · simp [runInteractiveLoop, hq, stopInput]
      · by_cases hempty : r.trim.isEmpty
        · simp [runInteractiveLoop, hq, hempty, stopInput, ih]
        · cases horacle : oracle r.trim <;>
            simp [runInteractiveLoop, hq, hempty, horacle, stopInput, ih]

/-- The interactive loop forwards exactly the non-blank stripped lines entered
before the first stopping input, regardless of what the oracle does. -/
theorem runInteractiveLoop_calls_eq_forwarded (oracle : AgentOracle) :
    ∀ inputs : List UserInput,
      callsOf (runInteractiveLoop oracle inputs).1 = forwardedOf inputs := by
  intro inputs
  induction inputs with
  | nil => rfl
  | cons u rest ih =>
    cases u with
    | interrupt => simp [runInteractiveLoop, forwardedOf, stopInput, callsOf]
    | text r =>
      by_cases hq : isQuitKeyword r.trim
      · simp [runInteractiveLoop, hq, forwardedOf, stopInput, callsOf]
      · by_cases hempty : r.trim.isEmpty
        · simpa [runInteractiveLoop, hq, hempty, forwardedOf, stopInput,
            textOf, callsOf] using ih
        · cases horacle : oracle r.trim <;>
            simpa [runInteractiveLoop, hq, hempty, horacle, forwardedOf,
              stopInput, textOf, callsOf] using ih

/-- The `missing_vars` list of the google-adk `main` is empty exactly when both
credentials are truthy. -/
theorem googleAdk_missing_vars_isEmpty (env : Env) :
    (["XERO_CLIENT_ID", "XERO_CLIENT_SECRET"].filter
        (fun v => !envTruthy (env v))).isEmpty =
      (envTruthy (env "XERO_CLIENT_ID") && envTruthy (env "XERO_CLIENT_SECRET")) := by
  cases h1 : envTruthy (env "XERO_CLIENT_ID") <;>
    cases h2 : envTruthy (env "XERO_CLIENT_SECRET") <;>
      simp [List.filter, h1, h2]

/-- The google-adk `main` startup falls through to the demos exactly when the
environment checks pass and npx is available. -/
theorem googleAdk_startup_proceed_iff (env : Env) (npxA : Bool) :
    GoogleADK.main_startup true env npxA = StartupOutcome.proceed ↔
      (GoogleADK.envConfigOk env = true ∧ npxA = true) := by
  cases h1 : envTruthy (env "XERO_CLIENT_ID") <;>
    cases h2 : envTruthy (env "XERO_CLIENT_SECRET") <;>
      cases h3 : envTruthy (env "DEFAULT_MODEL") <;>
        cases h4 : envTruthy (env "GOOGLE_API_KEY") <;>
          cases h5 : envTruthy (env "GOOGLE_GENAI_USE_VERTEXAI") <;>
            cases npxA <;>
              simp [GoogleADK.main_startup, GoogleADK.envConfigOk, List.filter,
                h1, h2, h3, h4, h5]

/-- Every early exit of the google-adk `main` startup carries printed
instructions. -/
theorem googleAdk_startup_instruction (adkInstalled : Bool) (env : Env) (npxA : Bool) :
    (GoogleADK.main_startup adkInstalled env npxA).earlyExitHasInstruction = true := by
  cases adkInstalled <;>
    cases h1 : envTruthy (env "XERO_CLIENT_ID") <;>
      cases h2 : envTruthy (env "XERO_CLIENT_SECRET") <;>
        cases h3 : envTruthy (env "DEFAULT_MODEL") <;>
          cases h4 : envTruthy (env "GOOGLE_API_KEY") <;>
            cases h5 : envTruthy (env "GOOGLE_GENAI_USE_VERTEXAI") <;>
              cases npxA <;>
                simp [GoogleADK.main_startup, StartupOutcome.earlyExitHasInstruction,
                  List.filter, h1, h2, h3, h4, h5]

/-- The OpenAI-script `main` startup falls through exactly when the environment
checks pass and npx is available. -/
theorem openai_startup_proceed_iff (env : Env) (npxA : Bool) :
    OpenAIAgents.main_startup env npxA = StartupOutcome.proceed ↔
      (OpenAIAgents.envConfigOk env = true ∧ npxA = true) := by
  cases h1 : envTruthy (env "OPENAI_API_KEY") <;>
    cases h2 : envTruthy (env "XERO_CLIENT_ID") <;>
      cases h3 : envTruthy (env "XERO_CLIENT_SECRET") <;>
        cases npxA <;>
          simp [OpenAIAgents.main_startup, OpenAIAgents.envConfigOk, h1, h2, h3]

/-- The `RuntimeError` message of the OpenAI npx check is not empty. -/
theorem npx_runtime_error_msg_ne :
    ("npx is not installed. Please install it with `npm install -g npx`." : String).isEmpty
      = false := by
  decide

/-- Every early exit of the OpenAI-script `main` startup carries a message
(printed lines, or the `RuntimeError` message of the npx check). -/
theorem openai_startup_instruction (env : Env) (npxA : Bool) :
    (OpenAIAgents.main_startup env npxA).earlyExitHasInstruction = true := by
  cases h1 : envTruthy (env "OPENAI_API_KEY") <;>
    cases h2 : envTruthy (env "XERO_CLIENT_ID") <;>
      cases h3 : envTruthy (env "XERO_CLIENT_SECRET") <;>
        cases npxA <;>
          simp [OpenAIAgents.main_startup, StartupOutcome.earlyExitHasInstruction,
            h1, h2, h3, npx_runtime_error_msg_ne]

/-- The langchain `main` startup ignores npx availability entirely. -/
theorem langchain_startup_ignores_npx (env : Env) (a b : Bool) :
    Langchain.main_startup env a = Langchain.main_startup env b := rfl

/-- The langchain `main` startup falls through exactly when the environment
checks pass - npx availability plays no part. -/
theorem langchain_startup_proceed_iff (env : Env) (npxA : Bool) :
    Langchain.main_startup env npxA = StartupOutcome.proceed ↔
      Langchain.envConfigOk env = true := by
  cases h1 : envTruthy (env "OPENAI_API_KEY") <;>
    cases h2 : envTruthy (env "XERO_CLIENT_ID") <;>
      cases h3 : envTruthy (env "XERO_CLIENT_SECRET") <;>
        simp [Langchain.main_startup, Langchain.envConfigOk, h1, h2, h3]

/-- Every early exit of the langchain `main` startup carries printed
instructions. -/
theorem langchain_startup_instruction (env : Env) (npxA : Bool) :
    (Langchain.main_startup env npxA).earlyExitHasInstruction = true := by
  cases h1 : envTruthy (env "OPENAI_API_KEY") <;>
    cases h2 : envTruthy (env "XERO_CLIENT_ID") <;>
      cases h3 : envTruthy (env "XERO_CLIENT_SECRET") <;>
        simp [Langchain.main_startup, StartupOutcome.earlyExitHasInstruction,
          h1, h2, h3]

/-- Running a sequence of pure reads leaves the environment untouched. -/
theorem runEnvOps_of_allRead (env : Env) :
    ∀ ops : List EnvOp, ops.all EnvOp.isRead = true → runEnvOps env ops = env := by
  intro ops
  induction ops with
  | nil => intro _; rfl
  | cons a rest ih =>
    intro h
    rw [List.all_cons, Bool.and_eq_true] at h
    rcases h with ⟨ha, hrest⟩
    cases a with
    | read n => simpa [runEnvOps, applyEnvOp] using ih hrest
    | write n v => cases ha

/-- `all` restricts along infixes. -/
theorem all_of_segment {α : Type} (p : α → Bool) {l ops : List α}
    (hinf : l <:+: ops) (h : ops.all p = true) : l.all p = true := by
  rw [List.all_eq_true] at h ⊢
  intro x hx
  exact h x (hinf.subset hx)

/-- Every member of a string list is at most as long as the folded maximum of
the lengths. -/
theorem mem_length_le_foldr_max :
    ∀ (l : List String) (s : String), s ∈ l →
      s.length ≤ (l.map String.length).foldr max 0 := by
  intro l
  induction l with
  | nil => intro s hs; cases hs
  | cons a rest ih =>
    intro s hs
    rcases List.mem_cons.mp hs with h | h
    · subst h
      exact Nat.le_max_left _ _
    · exact Nat.le_trans (ih s h) (Nat.le_max_right _ _)

/-- The fresh string really is longer than every member of the list. -/
theorem freshString_length (l : List String) :
    (freshString l).length = (l.map String.length).foldr max 0 + 1 := by
  simp [freshString, String.length]

/-- The fresh string avoids the list. -/
theorem freshString_not_mem (l : List String) : freshString l ∉ l := by
  intro h
  have hle := mem_length_le_foldr_max l _ h
  rw [freshString_length] at hle
  omega

/-- A string with a non-empty prefix is non-empty. -/
theorem append_ne_empty_of_left_ne_empty (s t : String) (hs : s.data ≠ []) :
    s ++ t ≠ "" := by
  intro h
  have hd : (s ++ t).data = s.data ++ t.data := String.data_append s t
  rw [h] at hd
  rcases List.append_eq_nil.mp hd.symm with ⟨h1, _⟩
  exact hs h1

/-- `joinSpace` of non-empty strings is non-empty. -/
theorem joinSpace_ne_empty :
    ∀ l : List String, (∀ x ∈ l, x ≠ "") → l ≠ [] → joinSpace l ≠ "" := by
  intro l
  induction l with
  | nil => intro _ h; exact absurd rfl h
  | cons a rest ih =>
    intro hall _
    have ha : a ≠ "" := hall a (List.mem_cons_self a rest)
    have hadata : a.data ≠ [] := by
      intro hd
      exact ha (String.ext hd)
    cases rest with
    | nil => exact ha
    | cons b t =>
      show a ++ " " ++ joinSpace (b :: t) ≠ ""
      exact append_ne_empty_of_left_ne_empty _ _ (by
        intro hd
        rw [String.data_append] at hd
        rcases List.append_eq_nil.mp hd with ⟨h1, _⟩
        exact hadata h1)

/-- Every string `collectTexts` gathers is non-empty (the `part.text`
truthiness test filters out `None` and the empty string). -/
theorem collectTexts_ne_empty (events : List GoogleADK.Event) :
    ∀ x ∈ GoogleADK.collectTexts events, x ≠ "" := by
  have key : ∀ (evs : List GoogleADK.Event) (acc : List String),
      (∀ x ∈ acc, x ≠ "") →
      ∀ x ∈ evs.foldl
        (fun acc ev =>
          match ev.content with
          | some parts =>
              acc ++ parts.filterMap (fun p =>
                match p.text with
                | some t => if t.isEmpty then none else some t
                | none => none)
          | none => acc) acc, x ≠ "" := by
    intro evs
    induction evs with
    | nil => intro acc hacc x hx; exact hacc x hx
    | cons ev rest ih =>
      intro acc hacc x hx
      refine ih _ ?_ x hx
      cases hc : ev.content with
      | none => simpa [hc] using hacc
      | some parts =>
        intro y hy
        simp only [hc] at hy
        rcases List.mem_append.mp hy with h | h
        · exact hacc y h
        · rcases List.mem_filterMap.mp h with ⟨p, _, hp⟩
          cases hpt : p.text with
          | none => simp [hpt] at hp
          | some t =>
            by_cases ht : t.isEmpty
            · simp [hpt, ht] at hp
            · simp only [hpt, ht, if_neg, Bool.false_eq_true,
                not_false_eq_true, if_false, Option.some.injEq] at hp
              subst hp
              intro h0
              exact ht (by rw [h0]; rfl)
  intro x hx
  exact key events [] (by intro y hy; cases hy) x hx

/-- Per-query demo loops attempt exactly the scripted queries, in order,
whatever the oracle returns or raises. -/
theorem callsOf_runQueriesTryInside (oracle : AgentOracle) :
    ∀ qs : List String, callsOf (runQueriesTryInside oracle qs) = qs := by
  intro qs
  induction qs with
  | nil => rfl
  | cons a rest ih =>
    cases horacle : oracle a <;>
      simpa [runQueriesTryInside, horacle, callsOf] using ih

/-- In a whole-loop `try`/`except`, the first raise prints its message and
stops the loop: exactly the earlier (successful) queries and the raising one
are attempted, and everything after it is abandoned. -/
theorem runQueriesTryOutside_error_abort (oracle : AgentOracle) :
    ∀ (pre : List String) (q : String) (post : List String) (e : String),
      (∀ p ∈ pre, ∃ r, oracle p = Except.ok r) → oracle q = Except.error e →
      callsOf (runQueriesTryOutside oracle (pre ++ q :: post)) = pre ++ [q] ∧
      DemoEvent.print e ∈ runQueriesTryOutside oracle (pre ++ q :: post) := by
  intro pre
  induction pre with
  | nil =>
    intro q post e _ he
    constructor
    · simp [runQueriesTryOutside, he, callsOf]
    · simp [runQueriesTryOutside, he]
  | cons p rest ih =>
    intro q post e hpre he
    obtain ⟨r, hr⟩ := hpre p (List.mem_cons_self p rest)
    have h := ih q post e (fun x hx => hpre x (List.mem_cons_of_mem p hx)) he
    constructor
    · simpa [runQueriesTryOutside, hr, callsOf] using h.1
    · simp [runQueriesTryOutside, hr, h.2]

/-- The interactive loop prints the message of any exception raised on a
forwarded input. -/
theorem runInteractiveLoop_error_print_mem (oracle : AgentOracle) :
    ∀ (inputs : List UserInput) (s e : String), s ∈ forwardedOf inputs →
      oracle s = Except.error e →
      DemoEvent.print e ∈ (runInteractiveLoop oracle inputs).1 := by
  intro inputs
  induction inputs with
  | nil => intro s e hs _; simp [forwardedOf] at hs
  | cons u rest ih =>
    intro s e hs he
    cases u with
    | interrupt => simp [forwardedOf, stopInput, List.takeWhile] at hs
    | text r =>
      by_cases hq : isQuitKeyword r.trim
      · simp [forwardedOf, stopInput, hq, List.takeWhile] at hs
      · by_cases hempty : r.trim.isEmpty
        · have hs' : s ∈ forwardedOf rest := by
            simpa [forwardedOf, stopInput, hq, hempty, textOf,
              List.takeWhile] using hs
          simpa [runInteractiveLoop, hq, hempty] using ih s e hs' he
        · have hsplit : s = r.trim ∨ s ∈ forwardedOf rest := by
            simpa [forwardedOf, stopInput, hq, hempty, textOf,
              List.takeWhile] using hs
          rcases hsplit with h | h
          · subst h
            simp [runInteractiveLoop, hq, hempty, he]
          · have hmem := ih s e h he
            cases horacle : oracle r.trim <;>
              simp [runInteractiveLoop, hq, hempty, horacle, hmem]

/-- The google-adk menu accepts exactly the stripped choices "1"-"6". -/
theorem googleAdk_selectDemo_isSome (choice : String) :
    (GoogleADK.selectDemo choice).isSome =
      (["1", "2", "3", "4", "5", "6"] : List String).contains choice.trim := by
  have h := lookup_isSome_eq_contains choice.trim GoogleADK.demos
  simpa [GoogleADK.selectDemo, GoogleADK.demos] using h

/-- The langchain menu accepts exactly the stripped choices "1"-"6". -/
theorem langchain_selectDemo_isSome (choice : String) :
    (Langchain.selectDemo choice).isSome =
      (["1", "2", "3", "4", "5", "6"] : List String).contains choice.trim := by
  have h := lookup_isSome_eq_contains choice.trim Langchain.demos
  simpa [Langchain.selectDemo, Langchain.demos] using h

/-- The OpenAI-script menu accepts exactly the stripped choices "1"-"6". -/
theorem openai_selectDemo_isSome (choice : String) :
    (OpenAIAgents.selectDemo choice).isSome =
      (["1", "2", "3", "4", "5", "6"] : List String).contains choice.trim := by
  simp only [OpenAIAgents.selectDemo]
  split_ifs with h1 h2 h3 h4 h5 h6 <;> simp_all

/-! ## Claim theorems -/

/-- C1, counterexample: with an oracle that raises on every invocation, the
langchain invoice-specialist demo prints the exception's message but never
starts its second scripted step - the whole-loop `try`/`except` aborts the
remaining steps, refuting "execution continues to the next demo step" for that
scenario. -/
theorem C1_counterexample :
    DemoEvent.print "boom" ∈
        Langchain.demo_invoice_specialist_agent (fun _ => Except.error "boom") ∧
    DemoEvent.callStart "Find the first 3 customers" ∉
        Langchain.demo_invoice_specialist_agent (fun _ => Except.error "boom") := by
  decide

/-- C1, amended: every SDK call sits inside a broad exception catch that prints
the exception's message; in every google-adk demo, every per-request OpenAI
demo and every interactive loop the catch is per step, so execution continues
to the next step or prompt, but in every langchain demo and in the OpenAI
multi-agent and comprehensive workflow demos one catch wraps the whole
scenario, so a raise prints the message and abandons the remaining steps of
that scenario. -/
theorem C1_spec (oracle : AgentOracle) :
    (callsOf (GoogleADK.demo_basic_operations oracle) =
        GoogleADK.basic_operations_queries ∧
      callsOf (GoogleADK.demo_invoice_workflow oracle) =
        GoogleADK.invoice_workflow_queries ∧
      callsOf (GoogleADK.demo_natural_language_processing oracle) =
        GoogleADK.nl_queries ∧
      callsOf (GoogleADK.demo_error_handling oracle) =
        GoogleADK.error_scenarios ∧
      callsOf (GoogleADK.demo_batch_operations oracle) = [GoogleADK.batch_query] ∧
      callsOf (OpenAIAgents.demo_basic_agent oracle) =
        OpenAIAgents.basic_agent_requests ∧
      callsOf (OpenAIAgents.demo_invoice_specialist oracle) =
        OpenAIAgents.invoice_specialist_requests ∧
      callsOf (OpenAIAgents.demo_contact_manager oracle) =
        OpenAIAgents.contact_manager_requests) ∧
    ((∀ q ∈ GoogleADK.basic_operations_queries, ∀ e, oracle q = Except.error e →
        DemoEvent.print e ∈ GoogleADK.demo_basic_operations oracle) ∧
      (∀ q ∈ GoogleADK.invoice_workflow_queries, ∀ e, oracle q = Except.error e →
        DemoEvent.print e ∈ GoogleADK.demo_invoice_workflow oracle) ∧
      (∀ q ∈ GoogleADK.nl_queries, ∀ e, oracle q = Except.error e →
        DemoEvent.print e ∈ GoogleADK.demo_natural_language_processing oracle) ∧
      (∀ q ∈ GoogleADK.error_scenarios, ∀ e, oracle q = Except.error e →
        DemoEvent.print e ∈ GoogleADK.demo_error_handling oracle) ∧
      (∀ q ∈ [GoogleADK.batch_query], ∀ e, oracle q = Except.error e →
        DemoEvent.print e ∈ GoogleADK.demo_batch_operations oracle) ∧
      (∀ q ∈ OpenAIAgents.basic_agent_requests, ∀ e, oracle q = Except.error e →
        DemoEvent.print e ∈ OpenAIAgents.demo_basic_agent oracle) ∧
      (∀ q ∈ OpenAIAgents.invoice_specialist_requests, ∀ e, oracle q = Except.error e →
        DemoEvent.print e ∈ OpenAIAgents.demo_invoice_specialist oracle) ∧
      (∀ q ∈ OpenAIAgents.contact_manager_requests, ∀ e, oracle q = Except.error e →
        DemoEvent.print e ∈ OpenAIAgents.demo_contact_manager oracle)) ∧
    ((∀ pre q post e, Langchain.invoice_specialist_queries = pre ++ q :: post →
        (∀ p ∈ pre, ∃ r, oracle p = Except.ok r) → oracle q = Except.error e →
        callsOf (Langchain.demo_invoice_specialist_agent oracle) = pre ++ [q] ∧
        DemoEvent.print e ∈ Langchain.demo_invoice_specialist_agent oracle) ∧
      (∀ pre q post e, Langchain.contact_manager_queries = pre ++ q :: post →
        (∀ p ∈ pre, ∃ r, oracle p = Except.ok r) → oracle q = Except.error e →
        callsOf (Langchain.demo_contact_manager_agent oracle) = pre ++ [q] ∧
        DemoEvent.print e ∈ Langchain.demo_contact_manager_agent oracle) ∧
      (∀ pre q post e, [Langchain.workflow_prompt] = pre ++ q :: post →
        (∀ p ∈ pre, ∃ r, oracle p = Except.ok r) → oracle q = Except.error e →
        callsOf (Langchain.demo_multi_step_workflow oracle) = pre ++ [q] ∧
        DemoEvent.print e ∈ Langchain.demo_multi_step_workflow oracle) ∧
      (∀ pre q post e, [Langchain.analysis_prompt] = pre ++ q :: post →
        (∀ p ∈ pre, ∃ r, oracle p = Except.ok r) → oracle q = Except.error e →
        callsOf (Langchain.demo_invoice_analysis oracle) = pre ++ [q] ∧
        DemoEvent.print e ∈ Langchain.demo_invoice_analysis oracle) ∧
      (∀ pre q post e, [Langchain.insights_prompt] = pre ++ q :: post →
        (∀ p ∈ pre, ∃ r, oracle p = Except.ok r) → oracle q = Except.error e →
        callsOf (Langchain.demo_organization_insights oracle) = pre ++ [q] ∧
        DemoEvent.print e ∈ Langchain.demo_organization_insights oracle) ∧
      (∀ pre q post e, OpenAIAgents.multi_agent_workflow_steps = pre ++ q :: post →
        (∀ p ∈ pre, ∃ r, oracle p = Except.ok r) → oracle q = Except.error e →
        callsOf (OpenAIAgents.demo_multi_agent_workflow oracle) = pre ++ [q] ∧
        DemoEvent.print e ∈ OpenAIAgents.demo_multi_agent_workflow oracle) ∧
      (∀ pre q post e, OpenAIAgents.comprehensive_workflow_steps = pre ++ q :: post →
        (∀ p ∈ pre, ∃ r, oracle p = Except.ok r) → oracle q = Except.error e →
        callsOf (OpenAIAgents.demo_comprehensive_workflow oracle) = pre ++ [q] ∧
        DemoEvent.print e ∈ OpenAIAgents.demo_comprehensive_workflow oracle)) ∧
    ((∀ inputs, callsOf (GoogleADK.interactive_demo oracle inputs).1 =
        forwardedOf inputs) ∧
      (∀ inputs, callsOf (Langchain.interactive_mcp_demo oracle inputs).1 =
        forwardedOf inputs) ∧
      (∀ inputs, callsOf (OpenAIAgents.interactive_demo_loop oracle inputs).1 =
        forwardedOf inputs)) ∧
    ((∀ inputs s e, s ∈ forwardedOf inputs → oracle s = Except.error e →
        DemoEvent.print e ∈ (GoogleADK.interactive_demo oracle inputs).1) ∧
      (∀ inputs s e, s ∈ forwardedOf inputs → oracle s = Except.error e →
        DemoEvent.print e ∈ (Langchain.interactive_mcp_demo oracle inputs).1) ∧
      (∀ inputs s e, s ∈ forwardedOf inputs → oracle s = Except.error e →
        DemoEvent.print e ∈ (OpenAIAgents.interactive_demo_loop oracle inputs).1)) := by
  refine ⟨⟨callsOf_runQueriesTryInside oracle _, callsOf_runQueriesTryInside oracle _,
       callsOf_runQueriesTryInside oracle _, callsOf_runQueriesTryInside oracle _,
       callsOf_runQueriesTryInside oracle _, callsOf_runQueriesTryInside oracle _,
       callsOf_runQueriesTryInside oracle _, callsOf_runQueriesTryInside oracle _⟩,
     ⟨fun q hq e he => runQueriesTryInside_error_print_mem oracle _ q hq e he,
       fun q hq e he => runQueriesTryInside_error_print_mem oracle _ q hq e he,
       fun q hq e he => runQueriesTryInside_error_print_mem oracle _ q hq e he,
       fun q hq e he => runQueriesTryInside_error_print_mem oracle _ q hq e he,
       fun q hq e he => runQueriesTryInside_error_print_mem oracle _ q hq e he,
       fun q hq e he => runQueriesTryInside_error_print_mem oracle _ q hq e he,
       fun q hq e he => runQueriesTryInside_error_print_mem oracle _ q hq e he,
       fun q hq e he => runQueriesTryInside_error_print_mem oracle _ q hq e he⟩,
     ⟨?_, ?_, ?_, ?_, ?_, ?_, ?_⟩,
     ⟨fun inputs => runInteractiveLoop_calls_eq_forwarded oracle inputs,
       fun inputs => runInteractiveLoop_calls_eq_forwarded oracle inputs,
       fun inputs => runInteractiveLoop_calls_eq_forwarded oracle inputs⟩,
     ⟨fun inputs s e hs he => runInteractiveLoop_error_print_mem oracle inputs s e hs he,
       fun inputs s e hs he => runInteractiveLoop_error_print_mem oracle inputs s e hs he,
       fun inputs s e hs he => runInteractiveLoop_error_print_mem oracle inputs s e hs he⟩⟩
  all_goals
    intro pre q post e hsplit hpre he
    have h := runQueriesTryOutside_error_abort oracle pre q post e hpre he
    rw [← hsplit] at h
    exact h

/-- C1, witness: the amended theorem at a concrete always-raising oracle. -/
theorem C1_witness :
    DemoEvent.print "boom" ∈
        GoogleADK.demo_basic_operations (fun _ => Except.error "boom") ∧
    callsOf (Langchain.demo_invoice_specialist_agent (fun _ => Except.error "boom")) =
      [] ++ ["Find all draft invoices"] ∧
    DemoEvent.print "boom" ∈
        Langchain.demo_invoice_specialist_agent (fun _ => Except.error "boom") :=
  ⟨(C1_spec (fun _ => Except.error "boom")).2.1.1
      "Show me a summary of my Xero account" (by decide) "boom" rfl,
   ((C1_spec (fun _ => Except.error "boom")).2.2.1.1 [] "Find all draft invoices"
      ["Find the first 3 customers",
       "Create an invoice for one of the customers found for 10 hours of consulting at $150 per hour"]
      "boom" rfl (fun p hp => absurd hp (List.not_mem_nil p)) rfl).1,
   ((C1_spec (fun _ => Except.error "boom")).2.2.1.1 [] "Find all draft invoices"
      ["Find the first 3 customers",
       "Create an invoice for one of the customers found for 10 hours of consulting at $150 per hour"]
      "boom" rfl (fun p hp => absurd hp (List.not_mem_nil p)) rfl).2⟩

/-- C2, counterexample: the langchain script hands the agent every tool the
server exposes, so no fixed finite allow-list of names describes the tools the
agent is given. -/
theorem C2_counterexample :
    ¬ ∃ allow : List String, ∀ serverTools : List String,
        Langchain.agent_tools serverTools = allowListGives allow serverTools := by
  rintro ⟨allow, h⟩
  have h1 := h [freshString allow]
  have h2 : freshString allow ∉ allow := freshString_not_mem allow
  simp [Langchain.agent_tools, allowListGives, h2] at h1

/-- C2, amended: the google-adk script and the Cloud Run agent construct their
toolsets with fixed hardcoded allow-lists (`tool_filter`); the langchain and
OpenAI scripts construct their tool-provider handles without any allow-list and
give the agent every tool the server exposes. -/
theorem C2_spec (env : Env) :
    (GoogleADK.create_xero_mcp_toolset env).tool_filter =
      some ["list-contacts", "create-contact", "list-invoices", "create-invoice",
            "get-timesheet", "list-accounts", "list-items", "list-tax-rates",
            "list-tracking-categories", "update-contact", "update-invoice",
            "create-payment", "list-payments", "list-organisation-details"] ∧
    (CloudRun.xero_mcp_toolset env).tool_filter =
      some ["list-contacts", "list-items", "list-tax-rates", "list-accounts",
            "list-tracking-categories", "create-invoice", "list-invoices",
            "update-invoice"] ∧
    (∀ serverTools : List String, Langchain.agent_tools serverTools = serverTools) ∧
    (∀ serverTools : List String, OpenAIAgents.agent_tools serverTools = serverTools) ∧
    (∀ s : String, (OpenAIAgents.create_basic_xero_agent s).mcp_servers = [s]) :=
  ⟨rfl, rfl, fun _ => rfl, fun _ => rfl, fun _ => rfl⟩

/-- C3, counterexample: with every required environment variable set but npx
missing, the langchain `main` proceeds to the demos instead of terminating -
its startup never consults npx availability. -/
theorem C3_counterexample :
    Langchain.main_startup demoEnv false = StartupOutcome.proceed ∧
    Langchain.main_startup demoEnv false = Langchain.main_startup demoEnv true := by
  exact ⟨rfl, rfl⟩

/-- C3, amended: the google-adk and OpenAI scripts check the required
environment variables and npx once at startup, before any agent or
tool-provider construction, and every failing check exits early with a
user-visible message (the OpenAI npx check by raising a `RuntimeError` whose
message carries the instruction); the langchain script checks only its
required environment variables and never checks for npx. -/
theorem C3_spec (env : Env) (npxAvailable : Bool) :
    (GoogleADK.main_startup true env npxAvailable = StartupOutcome.proceed ↔
        (GoogleADK.envConfigOk env = true ∧ npxAvailable = true)) ∧
    (GoogleADK.main_startup true env npxAvailable).earlyExitHasInstruction = true ∧
    (OpenAIAgents.main_startup env npxAvailable = StartupOutcome.proceed ↔
        (OpenAIAgents.envConfigOk env = true ∧ npxAvailable = true)) ∧
    (OpenAIAgents.main_startup env npxAvailable).earlyExitHasInstruction = true ∧
    Langchain.main_startup env npxAvailable = Langchain.main_startup env true ∧
    (Langchain.main_startup env npxAvailable = StartupOutcome.proceed ↔
        Langchain.envConfigOk env = true) ∧
    (Langchain.main_startup env npxAvailable).earlyExitHasInstruction = true :=
  ⟨googleAdk_startup_proceed_iff env npxAvailable,
   googleAdk_startup_instruction true env npxAvailable,
   openai_startup_proceed_iff env npxAvailable,
   openai_startup_instruction env npxAvailable,
   langchain_startup_ignores_npx env npxAvailable true,
   langchain_startup_proceed_iff env npxAvailable,
   langchain_startup_instruction env npxAvailable⟩

/-- C4: every script launches the tool-provider subprocess as
`npx ... @xeroapi/xero-mcp-server@latest ...` and passes `XERO_CLIENT_ID` and
`XERO_CLIENT_SECRET` through the subprocess environment mapping. -/
theorem C4_spec (env : Env) (cid cs : String)
    (hcid : env "XERO_CLIENT_ID" = some cid)
    (hcs : env "XERO_CLIENT_SECRET" = some cs) :
    ((GoogleADK.create_xero_mcp_toolset env).connection_params.command = "npx" ∧
      TS_MCP_SERVER_COMMAND ∈ (GoogleADK.create_xero_mcp_toolset env).connection_params.args ∧
      ((GoogleADK.create_xero_mcp_toolset env).connection_params.env_vars.lookup
          "XERO_CLIENT_ID" = some (some cid)) ∧
      ((GoogleADK.create_xero_mcp_toolset env).connection_params.env_vars.lookup
          "XERO_CLIENT_SECRET" = some (some cs))) ∧
    ((CloudRun.xero_mcp_toolset env).connection_params.command = "npx" ∧
      TS_MCP_SERVER_COMMAND ∈ (CloudRun.xero_mcp_toolset env).connection_params.args ∧
      ((CloudRun.xero_mcp_toolset env).connection_params.env_vars.lookup
          "XERO_CLIENT_ID" = some (some cid)) ∧
      ((CloudRun.xero_mcp_toolset env).connection_params.env_vars.lookup
          "XERO_CLIENT_SECRET" = some (some cs))) ∧
    ((Langchain.xero_server_config env).command = "npx" ∧
      "@xeroapi/xero-mcp-server@latest" ∈ (Langchain.xero_server_config env).args ∧
      ((Langchain.xero_server_config env).env.lookup "XERO_CLIENT_ID" = some (some cid)) ∧
      ((Langchain.xero_server_config env).env.lookup "XERO_CLIENT_SECRET" = some (some cs))) ∧
    (OpenAIAgents.main_server_params env = some (OpenAIAgents.mcp_server_params cid cs) ∧
      (OpenAIAgents.mcp_server_params cid cs).command = "npx" ∧
      "@xeroapi/xero-mcp-server@latest" ∈ (OpenAIAgents.mcp_server_params cid cs).args ∧
      ((OpenAIAgents.mcp_server_params cid cs).env_vars.lookup
          "XERO_CLIENT_ID" = some (some cid)) ∧
      ((OpenAIAgents.mcp_server_params cid cs).env_vars.lookup
          "XERO_CLIENT_SECRET" = some (some cs))) := by
  refine ⟨⟨rfl, ?_, ?_, ?_⟩, ⟨rfl, ?_, ?_, ?_⟩, ⟨rfl, ?_, ?_, ?_⟩, ⟨?_, rfl, ?_, ?_, ?_⟩⟩ <;>
    simp [GoogleADK.create_xero_mcp_toolset, CloudRun.xero_mcp_toolset,
      CloudRun.my_env_vars, Langchain.xero_server_config,
      OpenAIAgents.main_server_params, OpenAIAgents.mcp_server_params,
      TS_MCP_SERVER_COMMAND, hcid, hcs, List.lookup]

/-- C4, witness: the subprocess configuration at a concrete environment. -/
theorem C4_witness :
    (GoogleADK.create_xero_mcp_toolset demoEnv).connection_params.command = "npx" ∧
    OpenAIAgents.main_server_params demoEnv =
      some (OpenAIAgents.mcp_server_params "cid" "secret") :=
  ⟨(C4_spec demoEnv "cid" "secret" rfl rfl).1.1,
   (C4_spec demoEnv "cid" "secret" rfl rfl).2.2.2.1⟩

/-- C5: each script's numbered menu accepts exactly the choices "1"-"6", and
each interactive input loop terminates exactly on a quit keyword
(case-insensitively, after stripping) or an interrupt, forwarding to the agent
exactly the non-blank stripped inputs entered before that point. -/
theorem C5_spec :
    (∀ choice : String, (GoogleADK.selectDemo choice).isSome =
        (["1", "2", "3", "4", "5", "6"] : List String).contains choice.trim) ∧
    (∀ choice : String, (Langchain.selectDemo choice).isSome =
        (["1", "2", "3", "4", "5", "6"] : List String).contains choice.trim) ∧
    (∀ choice : String, (OpenAIAgents.selectDemo choice).isSome =
        (["1", "2", "3", "4", "5", "6"] : List String).contains choice.trim) ∧
    (∀ (oracle : AgentOracle) (inputs : List UserInput),
        (GoogleADK.interactive_demo oracle inputs).2 = inputs.any stopInput ∧
        callsOf (GoogleADK.interactive_demo oracle inputs).1 = forwardedOf inputs) ∧
    (∀ (oracle : AgentOracle) (inputs : List UserInput),
        (Langchain.interactive_mcp_demo oracle inputs).2 = inputs.any stopInput ∧
        callsOf (Langchain.interactive_mcp_demo oracle inputs).1 = forwardedOf inputs) ∧
    (∀ (oracle : AgentOracle) (inputs : List UserInput),
        (OpenAIAgents.interactive_demo_loop oracle inputs).2 = inputs.any stopInput ∧
        callsOf (OpenAIAgents.interactive_demo_loop oracle inputs).1 = forwardedOf inputs) :=
  ⟨googleAdk_selectDemo_isSome,
   langchain_selectDemo_isSome,
   openai_selectDemo_isSome,
   fun oracle inputs => ⟨runInteractiveLoop_snd_eq_any oracle inputs,
     runInteractiveLoop_calls_eq_forwarded oracle inputs⟩,
   fun oracle inputs => ⟨runInteractiveLoop_snd_eq_any oracle inputs,
     runInteractiveLoop_calls_eq_forwarded oracle inputs⟩,
   fun oracle inputs => ⟨runInteractiveLoop_snd_eq_any oracle inputs,
     runInteractiveLoop_calls_eq_forwarded oracle inputs⟩⟩

/-- C6: every environment access in the four source files is a read, so running
any contiguous stretch of any script's environment operations leaves the
configuration exactly as it was at startup. -/
theorem C6_spec (env : Env) :
    ∀ ops ∈ allScriptEnvOps, ops.all EnvOp.isRead = true ∧
      ∀ l, l <:+: ops → runEnvOps env l = env := by
  have hall : allScriptEnvOps.all (fun ops => ops.all EnvOp.isRead) = true := by decide
  intro ops hops
  rw [List.all_eq_true] at hall
  have h1 : ops.all EnvOp.isRead = true := hall ops hops
  exact ⟨h1, fun l hl => runEnvOps_of_allRead env l (all_of_segment _ hl h1)⟩

/-- C6, witness: the google-adk toolset's environment accesses at a concrete
environment. -/
theorem C6_witness :
    ([EnvOp.read "XERO_CLIENT_ID", EnvOp.read "XERO_CLIENT_SECRET"].all
        EnvOp.isRead = true) ∧
    runEnvOps demoEnv [EnvOp.read "XERO_CLIENT_ID"] = demoEnv :=
  ⟨(C6_spec demoEnv [EnvOp.read "XERO_CLIENT_ID", EnvOp.read "XERO_CLIENT_SECRET"]
      (by decide)).1,
   (C6_spec demoEnv [EnvOp.read "XERO_CLIENT_ID", EnvOp.read "XERO_CLIENT_SECRET"]
      (by decide)).2 [EnvOp.read "XERO_CLIENT_ID"]
      ⟨[], [EnvOp.read "XERO_CLIENT_SECRET"], rfl⟩⟩

/-- C7: in every demo and every interactive loop, whatever the oracle does, at
most one SDK call is in flight at any point of the trace - each awaited call
ends before the next begins. -/
theorem C7_spec (oracle : AgentOracle) :
    seqOk false (GoogleADK.demo_basic_operations oracle) = true ∧
    seqOk false (GoogleADK.demo_invoice_workflow oracle) = true ∧
    seqOk false (GoogleADK.demo_natural_language_processing oracle) = true ∧
    seqOk false (GoogleADK.demo_error_handling oracle) = true ∧
    seqOk false (GoogleADK.demo_batch_operations oracle) = true ∧
    seqOk false (Langchain.demo_invoice_specialist_agent oracle) = true ∧
    seqOk false (Langchain.demo_contact_manager_agent oracle) = true ∧
    seqOk false (Langchain.demo_multi_step_workflow oracle) = true ∧
    seqOk false (Langchain.demo_invoice_analysis oracle) = true ∧
    seqOk false (Langchain.demo_organization_insights oracle) = true ∧
    seqOk false (OpenAIAgents.demo_basic_agent oracle) = true ∧
    seqOk false (OpenAIAgents.demo_invoice_specialist oracle) = true ∧
    seqOk false (OpenAIAgents.demo_contact_manager oracle) = true ∧
    seqOk false (OpenAIAgents.demo_multi_agent_workflow oracle) = true ∧
    seqOk false (OpenAIAgents.demo_comprehensive_workflow oracle) = true ∧
    (∀ inputs, seqOk false (GoogleADK.interactive_demo oracle inputs).1 = true) ∧
    (∀ inputs, seqOk false (Langchain.interactive_mcp_demo oracle inputs).1 = true) ∧
    (∀ inputs, seqOk false (OpenAIAgents.interactive_demo_loop oracle inputs).1 = true) :=
  ⟨seqOk_runQueriesTryInside oracle _, seqOk_runQueriesTryInside oracle _,
   seqOk_runQueriesTryInside oracle _, seqOk_runQueriesTryInside oracle _,
   seqOk_runQueriesTryInside oracle _, seqOk_runQueriesTryOutside oracle _,
   seqOk_runQueriesTryOutside oracle _, seqOk_runQueriesTryOutside oracle _,
   seqOk_runQueriesTryOutside oracle _, seqOk_runQueriesTryOutside oracle _,
   seqOk_runQueriesTryInside oracle _, seqOk_runQueriesTryInside oracle _,
   seqOk_runQueriesTryInside oracle _, seqOk_runQueriesTryOutside oracle _,
   seqOk_runQueriesTryOutside oracle _, seqOk_runInteractiveLoop oracle,
   seqOk_runInteractiveLoop oracle, seqOk_runInteractiveLoop oracle⟩

/-- C8: `XeroADKAgent.process` never propagates an exception and always returns
a non-empty string; an exception becomes the formatted error message, and when
no text parts were collected the fixed fallback string is returned. -/
theorem C8_spec (query errMsg : String) (events : List GoogleADK.Event) :
    GoogleADK.XeroADKAgent.process query (Except.error errMsg) =
      "Error processing query \x27" ++ query ++ "\x27: " ++ errMsg ∧
    GoogleADK.XeroADKAgent.process query (Except.error errMsg) ≠ "" ∧
    GoogleADK.XeroADKAgent.process query (Except.ok events) ≠ "" ∧
    (GoogleADK.collectTexts events = [] →
      GoogleADK.XeroADKAgent.process query (Except.ok events) =
        "I\x27m ready to help with Xero operations!") := by
  refine ⟨rfl, ?_, ?_, ?_⟩
  · intro h
    have hl := congrArg String.length h
    simp only [GoogleADK.XeroADKAgent.process, String.length_append] at hl
    have h24 : ("Error processing query \x27" : String).length = 24 := rfl
    have h3 : ("\x27: " : String).length = 3 := rfl
    have h0 : ("" : String).length = 0 := rfl
    omega
  · cases hcol : GoogleADK.collectTexts events with
    | nil =>
      simp only [GoogleADK.XeroADKAgent.process, hcol, List.isEmpty_nil, if_true]
      decide
    | cons a l =>
      have hall := collectTexts_ne_empty events
      rw [hcol] at hall
      simp only [GoogleADK.XeroADKAgent.process, hcol, List.isEmpty_cons,
        Bool.false_eq_true, if_false]
      exact joinSpace_ne_empty (a :: l) hall (by simp)
  · intro hcol
    simp [GoogleADK.XeroADKAgent.process, hcol]

/-- C8, witness: the theorem at a concrete query with no events. -/
theorem C8_witness :
    GoogleADK.XeroADKAgent.process "hello" (Except.ok []) =
      "I\x27m ready to help with Xero operations!" ∧
    GoogleADK.XeroADKAgent.process "hello" (Except.error "boom") ≠ "" :=
  ⟨(C8_spec "hello" "boom" []).2.2.2 rfl, (C8_spec "hello" "boom" []).2.1⟩

/-- C9: `XeroADKAgent.cleanup` (and hence `__aexit__`) never propagates an
exception, whatever the toolset's cleanup methods or `gc.collect()` do; a
failure inside the body surfaces only as a printed warning. -/
theorem C9_spec (hasToolset : Bool) (b : GoogleADK.CleanupBehavior) :
    (∃ msgs, GoogleADK.XeroADKAgent.cleanup hasToolset b = Except.ok msgs) ∧
    (∃ msgs, GoogleADK.XeroADKAgent.aexit hasToolset b = Except.ok msgs) ∧
    (∀ e, b.gcResult = Except.error e →
      GoogleADK.XeroADKAgent.cleanup hasToolset b =
        Except.ok ["⚠️ Warning during cleanup: " ++ e]) := by
  refine ⟨?_, ?_, ?_⟩
  · cases hgc : b.gcResult with
    | ok u =>
      simp only [GoogleADK.XeroADKAgent.cleanup, hgc]
      exact ⟨_, rfl⟩
    | error e =>
      simp only [GoogleADK.XeroADKAgent.cleanup, hgc]
      exact ⟨_, rfl⟩
  · cases hgc : b.gcResult with
    | ok u =>
      simp only [GoogleADK.XeroADKAgent.aexit, GoogleADK.XeroADKAgent.cleanup, hgc]
      exact ⟨_, rfl⟩
    | error e =>
      simp only [GoogleADK.XeroADKAgent.aexit, GoogleADK.XeroADKAgent.cleanup, hgc]
      exact ⟨_, rfl⟩
  · intro e hgc
    simp [GoogleADK.XeroADKAgent.cleanup, hgc]

/-- C9, witness: cleanup still returns normally when `gc.collect()` raises. -/
theorem C9_witness :
    GoogleADK.XeroADKAgent.cleanup true failingCleanupBehavior =
      Except.ok ["⚠️ Warning during cleanup: " ++ "gc exploded"] :=
  (C9_spec true failingCleanupBehavior).2.2 "gc exploded" rfl

/-- C10: the Cloud Run module's toolset is constructed with the raw `os.getenv`
results and no missing-variable check: when both credentials are unset the
subprocess environment mapping carries `None` for both keys, and construction
still yields the full toolset and agent. -/
theorem C10_spec (env : Env)
    (hcid : env "XERO_CLIENT_ID" = none)
    (hcs : env "XERO_CLIENT_SECRET" = none) :
    ((CloudRun.xero_mcp_toolset env).connection_params.env_vars.lookup
        "XERO_CLIENT_ID" = some none) ∧
    ((CloudRun.xero_mcp_toolset env).connection_params.env_vars.lookup
        "XERO_CLIENT_SECRET" = some none) ∧
    (CloudRun.xero_mcp_toolset env).connection_params.command = "npx" ∧
    (CloudRun.xero_mcp_toolset env).connection_params.args = [TS_MCP_SERVER_COMMAND] ∧
    (CloudRun.xero_mcp_toolset env).tool_filter =
      some ["list-contacts", "list-items", "list-tax-rates", "list-accounts",
            "list-tracking-categories", "create-invoice", "list-invoices",
            "update-invoice"] ∧
    CloudRun.root_agent env =
      { name := "xero_invoicing_agent", model := env "DEFAULT_MODEL",
        description := "Xero Invoicing Agent",
        tools := [CloudRun.xero_mcp_toolset env] } := by
  refine ⟨?_, ?_, rfl, rfl, rfl, rfl⟩ <;>
    simp [CloudRun.xero_mcp_toolset, CloudRun.my_env_vars, hcid, hcs, List.lookup]

/-- C10, witness: the theorem at the empty environment. -/
theorem C10_witness :
    (CloudRun.xero_mcp_toolset emptyEnv).connection_params.env_vars.lookup
        "XERO_CLIENT_ID" = some none ∧
    (CloudRun.xero_mcp_toolset emptyEnv).connection_params.env_vars.lookup
        "XERO_CLIENT_SECRET" = some none :=
  ⟨(C10_spec emptyEnv rfl rfl).1, (C10_spec emptyEnv rfl rfl).2.1⟩

end XeroToolkit
